import Mathlib

/-!
Shallow embedding of the VP codec configuration record component of the
shaka-packager repository
(`packager/media/codecs/vp_codec_configuration_record.h`), together with
theorems checking the natural-language specification against it.

Bytes are modelled as `Nat` values (a `uint8_t` holds 0-255); byte
sequences are `List Nat`; the `base::Optional` fields of the record are
`Option`.  The header file is the authority for the data model, the
getters and the `const` qualifiers; the method bodies live in a `.cc`
file that is not part of the sources, so they are modelled from the
specification (sections 4.2-4.5), as noted on each such definition.
-/

/-- Enumerator `AVCOL_PRI_UNSPECIFIED = 2` of `AVColorPrimaries`
(vp_codec_configuration_record.h line 27); getter default for
`color_primaries`. -/
def AVCOL_PRI_UNSPECIFIED : Nat := 2

/-- Enumerator `AVCOL_TRC_UNSPECIFIED = 2` of
`AVColorTransferCharacteristic` (line 57); getter default for
`transfer_characteristics`. -/
def AVCOL_TRC_UNSPECIFIED : Nat := 2

/-- Enumerator `AVCOL_SPC_UNSPECIFIED = 2` of `AVColorSpace` (line 101);
getter default for `matrix_coefficients`. -/
def AVCOL_SPC_UNSPECIFIED : Nat := 2

/-- Enumerator `CHROMA_420_COLLOCATED_WITH_LUMA = 1` of
`VPCodecConfigurationRecord::ChromaSubsampling` (line 129); getter
default for `chroma_subsampling`. -/
def CHROMA_420_COLLOCATED_WITH_LUMA : Nat := 1

/-- Modelled from the spec: the `Codec` enumeration lives in
`packager/media/base/video_stream_info.h`, which is not under the
sources; only the VP8/VP9 distinction matters to this component
(spec section 4.4). -/
inductive Codec
  | kCodecVP8
  | kCodecVP9
  deriving DecidableEq

/-- Modelled from the spec: decimal rendering of one codec-string field,
"zero-padded to exactly two decimal digits" (spec section 4.4); the
implementation file is not under the sources.  Values above 99 render
with more digits rather than being truncated (spec section 4.4). -/
def twoDigit (n : Nat) : String :=
  if n < 10 then "0" ++ Nat.repr n else Nat.repr n

/-- Decimal digit characters, used to state the spec's "exactly two
decimal digits" rendering independently of `Nat.repr`. -/
def digitChar (n : Nat) : Char :=
  if n = 0 then '0' else if n = 1 then '1' else if n = 2 then '2'
  else if n = 3 then '3' else if n = 4 then '4' else if n = 5 then '5'
  else if n = 6 then '6' else if n = 7 then '7' else if n = 8 then '8'
  else '9'

/-- The spec's wording of a two-digit field: the tens digit followed by
the ones digit (spec-side definition, for comparison with `twoDigit`). -/
def specPad2 (n : Nat) : String :=
  String.mk [digitChar (n / 10 % 10), digitChar (n % 10)]

/-- Merge of one optional field: the value from `theirs` wins when it is
present (spec section 4.5). -/
def mergeField {α : Type} (mine theirs : Option α) : Option α :=
  match theirs with
  | some v => some v
  | none => mine

/-- Modelled from the spec: one WebM tag-length-value entry
`[id:1][length:1][value:length bytes]` for a field, emitted only when
the field is set (spec sections 4.3 and 6). -/
def webmChunk (id : Nat) : Option Nat → List Nat
  | some v => [id, 1, v]
  | none => []

/-- Modelled from the spec: WebM feature id for `profile`.  The spec
(section 9) asks for the id-to-field mapping to be a configurable
lookup table; ids 1-8 in field order are used here. -/
def kFeatureProfile : Nat := 1

/-- Modelled from the spec: WebM feature id for `level`. -/
def kFeatureLevel : Nat := 2

/-- Modelled from the spec: WebM feature id for `bit_depth`. -/
def kFeatureBitDepth : Nat := 3

/-- Modelled from the spec: WebM feature id for `chroma_subsampling`. -/
def kFeatureChromaSubsampling : Nat := 4

/-- Modelled from the spec: WebM feature id for `video_full_range_flag`. -/
def kFeatureVideoFullRangeFlag : Nat := 5

/-- Modelled from the spec: WebM feature id for `color_primaries`. -/
def kFeatureColorPrimaries : Nat := 6

/-- Modelled from the spec: WebM feature id for `transfer_characteristics`. -/
def kFeatureTransferCharacteristics : Nat := 7

/-- Modelled from the spec: WebM feature id for `matrix_coefficients`. -/
def kFeatureMatrixCoefficients : Nat := 8

/-- The record: eight independently optional scalar fields plus the
opaque initialization-data byte sequence
(`VPCodecConfigurationRecord`, vp_codec_configuration_record.h
lines 209-218). -/
structure VPCodecConfigurationRecord where
  profile_ : Option Nat
  level_ : Option Nat
  bit_depth_ : Option Nat
  chroma_subsampling_ : Option Nat
  video_full_range_flag_ : Option Bool
  color_primaries_ : Option Nat
  transfer_characteristics_ : Option Nat
  matrix_coefficients_ : Option Nat
  codec_initialization_data_ : List Nat
  deriving DecidableEq

namespace VPCodecConfigurationRecord

/-- Getter `profile()` (header line 190): `profile_.value_or(0)`. -/
def profile (r : VPCodecConfigurationRecord) : Nat := r.profile_.getD 0

/-- Getter `level()` (header line 191): `level_.value_or(10)`. -/
def level (r : VPCodecConfigurationRecord) : Nat := r.level_.getD 10

/-- Getter `bit_depth()` (header line 192): `bit_depth_.value_or(8)`. -/
def bit_depth (r : VPCodecConfigurationRecord) : Nat := r.bit_depth_.getD 8

/-- Getter `chroma_subsampling()` (header lines 193-195):
`chroma_subsampling_.value_or(CHROMA_420_COLLOCATED_WITH_LUMA)`. -/
def chroma_subsampling (r : VPCodecConfigurationRecord) : Nat :=
  r.chroma_subsampling_.getD CHROMA_420_COLLOCATED_WITH_LUMA

/-- Getter `video_full_range_flag()` (header lines 196-198):
`video_full_range_flag_.value_or(false)`. -/
def video_full_range_flag (r : VPCodecConfigurationRecord) : Bool :=
  r.video_full_range_flag_.getD false

/-- Getter `color_primaries()` (header lines 199-201):
`color_primaries_.value_or(AVCOL_PRI_UNSPECIFIED)`. -/
def color_primaries (r : VPCodecConfigurationRecord) : Nat :=
  r.color_primaries_.getD AVCOL_PRI_UNSPECIFIED

/-- Getter `transfer_characteristics()` (header lines 202-204):
`transfer_characteristics_.value_or(AVCOL_TRC_UNSPECIFIED)`. -/
def transfer_characteristics (r : VPCodecConfigurationRecord) : Nat :=
  r.transfer_characteristics_.getD AVCOL_TRC_UNSPECIFIED

/-- Getter `matrix_coefficients()` (header lines 205-207):
`matrix_coefficients_.value_or(AVCOL_SPC_UNSPECIFIED)`. -/
def matrix_coefficients (r : VPCodecConfigurationRecord) : Nat :=
  r.matrix_coefficients_.getD AVCOL_SPC_UNSPECIFIED

/-- Setter `set_profile` (header line 171). -/
def set_profile (r : VPCodecConfigurationRecord) (v : Nat) :
    VPCodecConfigurationRecord := { r with profile_ := some v }

/-- Setter `set_level` (header line 172). -/
def set_level (r : VPCodecConfigurationRecord) (v : Nat) :
    VPCodecConfigurationRecord := { r with level_ := some v }

/-- Setter `set_bit_depth` (header line 173). -/
def set_bit_depth (r : VPCodecConfigurationRecord) (v : Nat) :
    VPCodecConfigurationRecord := { r with bit_depth_ := some v }

/-- Setter `set_chroma_subsampling` (header lines 174-176). -/
def set_chroma_subsampling (r : VPCodecConfigurationRecord) (v : Nat) :
    VPCodecConfigurationRecord := { r with chroma_subsampling_ := some v }

/-- Setter `set_video_full_range_flag` (header lines 177-179). -/
def set_video_full_range_flag (r : VPCodecConfigurationRecord) (b : Bool) :
    VPCodecConfigurationRecord := { r with video_full_range_flag_ := some b }

/-- Setter `set_color_primaries` (header lines 180-182). -/
def set_color_primaries (r : VPCodecConfigurationRecord) (v : Nat) :
    VPCodecConfigurationRecord := { r with color_primaries_ := some v }

/-- Setter `set_transfer_characteristics` (header lines 183-185). -/
def set_transfer_characteristics (r : VPCodecConfigurationRecord) (v : Nat) :
    VPCodecConfigurationRecord := { r with transfer_characteristics_ := some v }

/-- Setter `set_matrix_coefficients` (header lines 186-188). -/
def set_matrix_coefficients (r : VPCodecConfigurationRecord) (v : Nat) :
    VPCodecConfigurationRecord := { r with matrix_coefficients_ := some v }

/-- Modelled from the spec: `ParseMP4` (spec section 4.2); the
implementation file is not under the sources.  Fixed 12-byte prefix:
version byte (must be 1), three reserved bytes implied by the spec's
"12-byte minimum" (ISO full-box flags, skipped), `profile`, `level`,
the packed byte (high 4 bits `bit_depth`, next 3 bits
`chroma_subsampling`, low bit `video_full_range_flag`), three colour
bytes, then a 16-bit big-endian initialization-data size that must not
exceed the remaining length.  On success every scalar field is set and
the initialization data is replaced; the prior record does not
contribute to the result. -/
def ParseMP4 (_r : VPCodecConfigurationRecord) (data : List Nat) :
    Option VPCodecConfigurationRecord :=
  match data with
  | version :: _fl0 :: _fl1 :: _fl2 :: profileB :: levelB :: packed ::
      cp :: tc :: mc :: sizeHi :: sizeLo :: rest =>
    if version ≠ 1 then none
    else if rest.length < sizeHi * 256 + sizeLo then none
    else
      some { profile_ := some profileB
             level_ := some levelB
             bit_depth_ := some (packed / 16 % 16)
             chroma_subsampling_ := some (packed / 2 % 8)
             video_full_range_flag_ := some (packed % 2 == 1)
             color_primaries_ := some cp
             transfer_characteristics_ := some tc
             matrix_coefficients_ := some mc
             codec_initialization_data_ := rest.take (sizeHi * 256 + sizeLo) }
  | _ => none

/-- Modelled from the spec: `WriteMP4` (spec section 4.2); the
implementation file is not under the sources.  Emits version 1, the
three reserved bytes as zero, every field through its getter, the
packed byte `(bit_depth << 4) | (chroma_subsampling << 1) |
video_full_range_flag` reduced to one byte, and the initialization-data
length as a 16-bit big-endian count followed by the data bytes. -/
def WriteMP4 (r : VPCodecConfigurationRecord) : List Nat :=
  1 :: 0 :: 0 :: 0 ::
  r.profile :: r.level ::
  ((r.bit_depth <<< 4 ||| r.chroma_subsampling <<< 1 |||
      (if r.video_full_range_flag then 1 else 0)) % 256) ::
  r.color_primaries :: r.transfer_characteristics :: r.matrix_coefficients ::
  (r.codec_initialization_data_.length % 65536 / 256) ::
  (r.codec_initialization_data_.length % 256) ::
  r.codec_initialization_data_

/-- Modelled from the spec: the WebM id lookup table (spec sections 4.3
and 9).  A recognized id yields the setter invoked with the entry's
value byte; for the boolean flag only the low bit of the value is
meaningful. -/
def fieldSetterById (id : Nat) :
    Option (VPCodecConfigurationRecord → Nat → VPCodecConfigurationRecord) :=
  if id = kFeatureProfile then some (fun r v => r.set_profile v)
  else if id = kFeatureLevel then some (fun r v => r.set_level v)
  else if id = kFeatureBitDepth then some (fun r v => r.set_bit_depth v)
  else if id = kFeatureChromaSubsampling then
    some (fun r v => r.set_chroma_subsampling v)
  else if id = kFeatureVideoFullRangeFlag then
    some (fun r v => r.set_video_full_range_flag (v % 2 == 1))
  else if id = kFeatureColorPrimaries then
    some (fun r v => r.set_color_primaries v)
  else if id = kFeatureTransferCharacteristics then
    some (fun r v => r.set_transfer_characteristics v)
  else if id = kFeatureMatrixCoefficients then
    some (fun r v => r.set_matrix_coefficients v)
  else none

/-- Modelled from the spec: the `ParseWebM` entry loop (spec section
4.3).  Each step reads `[id][length][value bytes]`; a recognized id
requires length 1 and sets its field, an unrecognized id is skipped
over its declared length, and a truncated entry fails.  The `fuel`
argument bounds the number of iterations; `ParseWebM` supplies the
input length, which is always enough (each iteration consumes at least
two bytes). -/
def parseWebMLoop :
    VPCodecConfigurationRecord → List Nat → Nat →
      Option VPCodecConfigurationRecord
  | r, [], _ => some r
  | _, _ :: _, 0 => none
  | _, [_], _ + 1 => none
  | r, id :: len :: rest, fuel + 1 =>
    match fieldSetterById id with
    | some s =>
      if len = 1 then
        match rest with
        | v :: rest2 => parseWebMLoop (s r v) rest2 fuel
        | [] => none
      else none
    | none =>
      if len ≤ rest.length then parseWebMLoop r (rest.drop len) fuel
      else none

/-- Modelled from the spec: `ParseWebM` (spec section 4.3); the
implementation file is not under the sources.  Runs the entry loop
over the whole buffer; on failure the record is untouched (the spec's
all-or-nothing propagation policy, section 7), which the `Option`
result models by not producing a record. -/
def ParseWebM (r : VPCodecConfigurationRecord) (data : List Nat) :
    Option VPCodecConfigurationRecord :=
  parseWebMLoop r data data.length

/-- Modelled from the spec: `WriteWebM` (spec section 4.3); the
implementation file is not under the sources.  Emits one
`[id][1][value]` entry per explicitly set field, in field order, and
never emits the initialization data. -/
def WriteWebM (r : VPCodecConfigurationRecord) : List Nat :=
  webmChunk kFeatureProfile r.profile_ ++
  webmChunk kFeatureLevel r.level_ ++
  webmChunk kFeatureBitDepth r.bit_depth_ ++
  webmChunk kFeatureChromaSubsampling r.chroma_subsampling_ ++
  webmChunk kFeatureVideoFullRangeFlag
    (r.video_full_range_flag_.map fun b => if b then 1 else 0) ++
  webmChunk kFeatureColorPrimaries r.color_primaries_ ++
  webmChunk kFeatureTransferCharacteristics r.transfer_characteristics_ ++
  webmChunk kFeatureMatrixCoefficients r.matrix_coefficients_

/-- Modelled from the spec: `GetCodecString` (spec section 4.4); the
implementation file is not under the sources.  VP8 yields the bare
tag; VP9 yields the dotted string of all eight fields through their
getters, each zero-padded to two decimal digits, with the boolean as
0 or 1. -/
def GetCodecString (r : VPCodecConfigurationRecord) (codec : Codec) : String :=
  match codec with
  | Codec.kCodecVP8 => "vp08"
  | Codec.kCodecVP9 =>
    "vp09." ++ twoDigit r.profile ++ "." ++ twoDigit r.level ++ "." ++
    twoDigit r.bit_depth ++ "." ++ twoDigit r.chroma_subsampling ++ "." ++
    twoDigit r.color_primaries ++ "." ++
    twoDigit r.transfer_characteristics ++ "." ++
    twoDigit r.matrix_coefficients ++ "." ++
    twoDigit (if r.video_full_range_flag then 1 else 0)

/-- Modelled from the spec: `MergeFrom` (header lines 167-169, spec
section 4.5); the implementation file is not under the sources.  Each
scalar field of `other` wins when set; the initialization data of
`other` wins when non-empty. -/
def MergeFrom (r other : VPCodecConfigurationRecord) :
    VPCodecConfigurationRecord :=
  { profile_ := mergeField r.profile_ other.profile_
    level_ := mergeField r.level_ other.level_
    bit_depth_ := mergeField r.bit_depth_ other.bit_depth_
    chroma_subsampling_ :=
      mergeField r.chroma_subsampling_ other.chroma_subsampling_
    video_full_range_flag_ :=
      mergeField r.video_full_range_flag_ other.video_full_range_flag_
    color_primaries_ := mergeField r.color_primaries_ other.color_primaries_
    transfer_characteristics_ :=
      mergeField r.transfer_characteristics_ other.transfer_characteristics_
    matrix_coefficients_ :=
      mergeField r.matrix_coefficients_ other.matrix_coefficients_
    codec_initialization_data_ :=
      if other.codec_initialization_data_.isEmpty then
        r.codec_initialization_data_
      else other.codec_initialization_data_ }

/-- The C++ calling convention of `bool ParseMP4(data)`: the returned
flag together with the record state after the call; on failure the
record is left as it was (spec section 7). -/
def ParseMP4Call (r : VPCodecConfigurationRecord) (data : List Nat) :
    Bool × VPCodecConfigurationRecord :=
  match ParseMP4 r data with
  | some r2 => (true, r2)
  | none => (false, r)

/-- The C++ calling convention of `bool ParseWebM(data)`: the returned
flag together with the record state after the call; on failure the
record is left as it was (spec section 7). -/
def ParseWebMCall (r : VPCodecConfigurationRecord) (data : List Nat) :
    Bool × VPCodecConfigurationRecord :=
  match ParseWebM r data with
  | some r2 => (true, r2)
  | none => (false, r)

end VPCodecConfigurationRecord

/-- A freshly default-constructed record: every field unset, empty
initialization data (header line 135 and spec section 3). -/
def emptyRecord : VPCodecConfigurationRecord :=
  { profile_ := none, level_ := none, bit_depth_ := none
    chroma_subsampling_ := none, video_full_range_flag_ := none
    color_primaries_ := none, transfer_characteristics_ := none
    matrix_coefficients_ := none, codec_initialization_data_ := [] }

/-- Sample record for the MP4 round-trip witness: all fields set, all
packed fields within their bit widths. -/
def mp4SampleRecord : VPCodecConfigurationRecord :=
  { profile_ := some 2, level_ := some 31, bit_depth_ := some 10
    chroma_subsampling_ := some 3, video_full_range_flag_ := some true
    color_primaries_ := some 9, transfer_characteristics_ := some 16
    matrix_coefficients_ := some 9, codec_initialization_data_ := [7, 0, 255] }

/-- Record refuting the unrestricted MP4 round-trip claim: every scalar
field is set, but `bit_depth = 16` overflows its 4-bit slot in the
packed byte. -/
def mp4CexRecord : VPCodecConfigurationRecord :=
  { profile_ := some 0, level_ := some 0, bit_depth_ := some 16
    chroma_subsampling_ := some 0, video_full_range_flag_ := some false
    color_primaries_ := some 0, transfer_characteristics_ := some 0
    matrix_coefficients_ := some 0, codec_initialization_data_ := [] }

/-- With `bit_depth` within 4 bits, `chroma_subsampling` within 3 and
the flag within 1, the packed byte's bitwise assembly is a plain sum. -/
theorem shiftLeft_or_eq_add : ∀ b < 16, ∀ c < 8, ∀ f < 2,
    b <<< 4 ||| c <<< 1 ||| f = b * 16 + c * 2 + f := by decide

/-- C6: a freshly default-constructed record's getters return exactly
profile 0, level 10, bit_depth 8, chroma_subsampling 1,
video_full_range_flag false, color_primaries 2,
transfer_characteristics 2, matrix_coefficients 2. -/
theorem default_getters :
    emptyRecord.profile = 0 ∧ emptyRecord.level = 10 ∧
    emptyRecord.bit_depth = 8 ∧ emptyRecord.chroma_subsampling = 1 ∧
    emptyRecord.video_full_range_flag = false ∧
    emptyRecord.color_primaries = 2 ∧
    emptyRecord.transfer_characteristics = 2 ∧
    emptyRecord.matrix_coefficients = 2 := by decide

/-- C4: `ParseMP4` fails exactly when the buffer is shorter than the
12-byte fixed prefix, the version byte differs from 1 (so version 0 is
rejected), or the declared initialization-data size exceeds the
remaining bytes; on any successful parse every scalar field becomes
set. -/
theorem parseMP4_failure_iff (r : VPCodecConfigurationRecord)
    (data : List Nat) :
    (r.ParseMP4 data = none ↔
      data.length < 12 ∨ data.getD 0 0 ≠ 1 ∨
        data.length - 12 < data.getD 10 0 * 256 + data.getD 11 0) ∧
    ∀ res, r.ParseMP4 data = some res →
      res.profile_.isSome ∧ res.level_.isSome ∧ res.bit_depth_.isSome ∧
      res.chroma_subsampling_.isSome ∧ res.video_full_range_flag_.isSome ∧
      res.color_primaries_.isSome ∧ res.transfer_characteristics_.isSome ∧
      res.matrix_coefficients_.isSome := by
  rcases data with _ | ⟨b0, _ | ⟨b1, _ | ⟨b2, _ | ⟨b3, _ | ⟨b4, _ | ⟨b5, _ |
    ⟨b6, _ | ⟨b7, _ | ⟨b8, _ | ⟨b9, _ | ⟨b10, _ | ⟨b11, rest⟩⟩⟩⟩⟩⟩⟩⟩⟩⟩⟩⟩
  case cons.cons.cons.cons.cons.cons.cons.cons.cons.cons.cons.cons =>
    constructor
    · simp only [VPCodecConfigurationRecord.ParseMP4, ne_eq, List.getD_cons_zero,
        List.getD_cons_succ, List.length_cons]
      split_ifs with h0 h1 <;> simp <;> omega
    · intro res h
      simp only [VPCodecConfigurationRecord.ParseMP4] at h
      split_ifs at h
      all_goals
        first
          | exact Option.noConfusion h
          | (rw [Option.some.injEq] at h; subst h; simp)
  all_goals
    refine ⟨by simp [VPCodecConfigurationRecord.ParseMP4]; try omega, ?_⟩
  all_goals
    intro res h
    simp [VPCodecConfigurationRecord.ParseMP4] at h

/-- Witness for the MP4 failure characterization: a 12-byte buffer whose
version byte is 0 is rejected. -/
theorem parseMP4_failure_iff_witness :
    emptyRecord.ParseMP4 [0, 0, 0, 0, 0, 0, 0, 0, 0, 0, 0, 0] = none :=
  (parseMP4_failure_iff emptyRecord
    [0, 0, 0, 0, 0, 0, 0, 0, 0, 0, 0, 0]).1.mpr (by decide)

/-- C1 (amended): the MP4 round-trip holds for every record with all
scalar fields set, initialization data of at most 65535 bytes, and the
packed fields within their fixed bit widths: `bit_depth` at most 15
and `chroma_subsampling` at most 7.  Parsing the written bytes from
any starting record reproduces the record field-for-field. -/
theorem mp4_roundtrip_inrange (r r0 : VPCodecConfigurationRecord)
    (hp : r.profile_.isSome) (hl : r.level_.isSome)
    (hb : r.bit_depth_.isSome) (hc : r.chroma_subsampling_.isSome)
    (hv : r.video_full_range_flag_.isSome) (hcp : r.color_primaries_.isSome)
    (ht : r.transfer_characteristics_.isSome)
    (hm : r.matrix_coefficients_.isSome)
    (hb15 : r.bit_depth ≤ 15) (hc7 : r.chroma_subsampling ≤ 7)
    (hlen : r.codec_initialization_data_.length ≤ 65535) :
    r0.ParseMP4 r.WriteMP4 = some r := by
  obtain ⟨op, ol, ob, oc, ov, ocp, otr, om, init⟩ := r
  obtain ⟨p, rfl⟩ := Option.isSome_iff_exists.mp hp
  obtain ⟨l, rfl⟩ := Option.isSome_iff_exists.mp hl
  obtain ⟨b, rfl⟩ := Option.isSome_iff_exists.mp hb
  obtain ⟨c, rfl⟩ := Option.isSome_iff_exists.mp hc
  obtain ⟨v, rfl⟩ := Option.isSome_iff_exists.mp hv
  obtain ⟨cp, rfl⟩ := Option.isSome_iff_exists.mp hcp
  obtain ⟨tc, rfl⟩ := Option.isSome_iff_exists.mp ht
  obtain ⟨mc, rfl⟩ := Option.isSome_iff_exists.mp hm
  simp only [VPCodecConfigurationRecord.bit_depth, Option.getD_some] at hb15
  simp only [VPCodecConfigurationRecord.chroma_subsampling,
    Option.getD_some] at hc7
  simp only [VPCodecConfigurationRecord.codec_initialization_data_] at hlen
  have hf : (if v then (1 : Nat) else 0) < 2 := by cases v <;> decide
  have hpacked := shiftLeft_or_eq_add b (by omega) c (by omega)
    (if v then 1 else 0) hf
  simp only [VPCodecConfigurationRecord.WriteMP4,
    VPCodecConfigurationRecord.profile, VPCodecConfigurationRecord.level,
    VPCodecConfigurationRecord.bit_depth,
    VPCodecConfigurationRecord.chroma_subsampling,
    VPCodecConfigurationRecord.video_full_range_flag,
    VPCodecConfigurationRecord.color_primaries,
    VPCodecConfigurationRecord.transfer_characteristics,
    VPCodecConfigurationRecord.matrix_coefficients,
    Option.getD_some, hpacked]
  have hlt : b * 16 + c * 2 + (if v then (1 : Nat) else 0) < 256 := by omega
  simp only [VPCodecConfigurationRecord.ParseMP4, Nat.mod_eq_of_lt hlt]
  have hsz : init.length % 65536 / 256 * 256 + init.length % 256 =
      init.length := by omega
  rw [hsz]
  cases v <;> simp [List.take_length] <;> omega

/-- C1 counterexample: `mp4CexRecord` has every scalar field explicitly
set and empty initialization data, yet `ParseMP4` applied to its
`WriteMP4` bytes does not reproduce it (`bit_depth = 16` is destroyed
by the 4-bit slot of the packed byte). -/
theorem mp4_roundtrip_cex :
    (mp4CexRecord.profile_.isSome ∧ mp4CexRecord.level_.isSome ∧
     mp4CexRecord.bit_depth_.isSome ∧
     mp4CexRecord.chroma_subsampling_.isSome ∧
     mp4CexRecord.video_full_range_flag_.isSome ∧
     mp4CexRecord.color_primaries_.isSome ∧
     mp4CexRecord.transfer_characteristics_.isSome ∧
     mp4CexRecord.matrix_coefficients_.isSome ∧
     mp4CexRecord.codec_initialization_data_.length ≤ 65535) ∧
    emptyRecord.ParseMP4 mp4CexRecord.WriteMP4 ≠ some mp4CexRecord := by
  decide

/-- Witness for the amended MP4 round-trip at a concrete in-range
record. -/
theorem mp4_roundtrip_inrange_witness :
    (mp4SampleRecord.bit_depth ≤ 15 ∧ mp4SampleRecord.chroma_subsampling ≤ 7 ∧
     mp4SampleRecord.codec_initialization_data_.length ≤ 65535) ∧
    emptyRecord.ParseMP4 mp4SampleRecord.WriteMP4 = some mp4SampleRecord :=
  ⟨by decide,
   mp4_roundtrip_inrange mp4SampleRecord emptyRecord (by decide) (by decide)
     (by decide) (by decide) (by decide) (by decide) (by decide) (by decide)
     (by decide) (by decide) (by decide)⟩

/-- The WebM entry loop does not depend on the fuel once the fuel
reaches the buffer length: every iteration consumes at least two
bytes, so the buffer length is always enough. -/
theorem parseWebMLoop_fuel (fuel : Nat) :
    ∀ (r : VPCodecConfigurationRecord) (d : List Nat) (f2 : Nat),
      d.length ≤ fuel → d.length ≤ f2 →
      VPCodecConfigurationRecord.parseWebMLoop r d fuel =
        VPCodecConfigurationRecord.parseWebMLoop r d f2 := by
  induction fuel with
  | zero =>
    intro r d f2 h1 h2
    cases d with
    | nil => simp [VPCodecConfigurationRecord.parseWebMLoop]
    | cons x xs => simp at h1
  | succ f ih =>
    intro r d f2 h1 h2
    cases d with
    | nil => simp [VPCodecConfigurationRecord.parseWebMLoop]
    | cons id d2 =>
      cases f2 with
      | zero => simp at h2
      | succ g =>
        cases d2 with
        | nil => rfl
        | cons len rest =>
          simp only [List.length_cons] at h1 h2
          cases hset : VPCodecConfigurationRecord.fieldSetterById id with
          | some s =>
            by_cases hl1 : len = 1
            · subst hl1
              cases rest with
              | nil =>
                simp [VPCodecConfigurationRecord.parseWebMLoop, hset]
              | cons v rest2 =>
                simp only [VPCodecConfigurationRecord.parseWebMLoop, hset,
                  if_pos rfl]
                simp only [List.length_cons] at h1 h2
                exact ih (s r v) rest2 g (by omega) (by omega)
            · simp [VPCodecConfigurationRecord.parseWebMLoop, hset, hl1]
          | none =>
            by_cases hskip : len ≤ rest.length
            · simp only [VPCodecConfigurationRecord.parseWebMLoop, hset,
                if_pos hskip]
              exact ih r (rest.drop len) g
                (by simp only [List.length_drop]; omega)
                (by simp only [List.length_drop]; omega)
            · simp [VPCodecConfigurationRecord.parseWebMLoop, hset, hskip]

/-- One recognized entry at the head of the buffer: the loop sets the
field and continues, with one unit of fuel consumed. -/
theorem parseWebMLoop_known_step (id : Nat)
    (s : VPCodecConfigurationRecord → Nat → VPCodecConfigurationRecord)
    (hs : VPCodecConfigurationRecord.fieldSetterById id = some s)
    (r : VPCodecConfigurationRecord) (v : Nat) (rest : List Nat)
    (fuel : Nat) :
    VPCodecConfigurationRecord.parseWebMLoop r (id :: 1 :: v :: rest)
      (fuel + 1) =
      VPCodecConfigurationRecord.parseWebMLoop (s r v) rest fuel := by
  simp [VPCodecConfigurationRecord.parseWebMLoop, hs]

/-- One recognized entry at the head of the buffer, at the `ParseWebM`
level. -/
theorem parseWebM_cons_known (id : Nat)
    (s : VPCodecConfigurationRecord → Nat → VPCodecConfigurationRecord)
    (hs : VPCodecConfigurationRecord.fieldSetterById id = some s)
    (r : VPCodecConfigurationRecord) (v : Nat) (rest : List Nat) :
    r.ParseWebM (id :: 1 :: v :: rest) = (s r v).ParseWebM rest := by
  show VPCodecConfigurationRecord.parseWebMLoop r (id :: 1 :: v :: rest)
      (rest.length + 2 + 1) =
    VPCodecConfigurationRecord.parseWebMLoop (s r v) rest rest.length
  rw [parseWebMLoop_known_step id s hs r v rest (rest.length + 2)]
  exact parseWebMLoop_fuel (rest.length + 2) (s r v) rest rest.length
    (by omega) (le_refl _)

/-- One unrecognized entry at the head of the buffer is skipped over its
declared length, at the `ParseWebM` level. -/
theorem parseWebM_cons_unknown (id len : Nat)
    (hid : VPCodecConfigurationRecord.fieldSetterById id = none)
    (vals : List Nat) (hlen : vals.length = len)
    (r : VPCodecConfigurationRecord) (rest : List Nat) :
    r.ParseWebM (id :: len :: (vals ++ rest)) = r.ParseWebM rest := by
  subst hlen
  show VPCodecConfigurationRecord.parseWebMLoop r
      (id :: vals.length :: (vals ++ rest)) ((vals ++ rest).length + 1 + 1) =
    VPCodecConfigurationRecord.parseWebMLoop r rest rest.length
  simp only [VPCodecConfigurationRecord.parseWebMLoop, hid,
    List.length_append]
  rw [List.drop_left,
    if_pos (show vals.length ≤ vals.length + rest.length by omega)]
  exact parseWebMLoop_fuel (vals.length + rest.length + 1) r rest rest.length
    (by omega) (le_refl _)

/-- The field list of a record for WebM serialization: the feature id
and the optional value byte of every field, in field order; the
boolean is rendered as its bit (spec section 4.3). -/
def webmEntryList (r : VPCodecConfigurationRecord) :
    List (Nat × Option Nat) :=
  [(kFeatureProfile, r.profile_), (kFeatureLevel, r.level_),
   (kFeatureBitDepth, r.bit_depth_),
   (kFeatureChromaSubsampling, r.chroma_subsampling_),
   (kFeatureVideoFullRangeFlag,
     r.video_full_range_flag_.map fun b => if b then 1 else 0),
   (kFeatureColorPrimaries, r.color_primaries_),
   (kFeatureTransferCharacteristics, r.transfer_characteristics_),
   (kFeatureMatrixCoefficients, r.matrix_coefficients_)]

/-- Concatenated TLV encoding of a field list. -/
def encodeEntries : List (Nat × Option Nat) → List Nat
  | [] => []
  | (id, o) :: t => webmChunk id o ++ encodeEntries t

/-- Application of a field list to a record through the id lookup
table: exactly what the parse loop does to the encoded entries. -/
def applyEntries :
    List (Nat × Option Nat) → VPCodecConfigurationRecord →
      VPCodecConfigurationRecord
  | [], r => r
  | (id, o) :: t, r =>
    match o, VPCodecConfigurationRecord.fieldSetterById id with
    | some v, some s => applyEntries t (s r v)
    | _, _ => applyEntries t r

/-- Parsing the encoding of a list of recognized fields from any
starting record applies exactly those fields' setters. -/
theorem parseWebM_encodeEntries (l : List (Nat × Option Nat)) :
    ∀ r : VPCodecConfigurationRecord,
      (∀ p ∈ l, (VPCodecConfigurationRecord.fieldSetterById p.1).isSome) →
      r.ParseWebM (encodeEntries l) = some (applyEntries l r) := by
  induction l with
  | nil =>
    intro r _
    simp [VPCodecConfigurationRecord.ParseWebM,
      VPCodecConfigurationRecord.parseWebMLoop, encodeEntries, applyEntries]
  | cons hd t ih =>
    obtain ⟨id, o⟩ := hd
    intro r hall
    have hid : (VPCodecConfigurationRecord.fieldSetterById id).isSome :=
      hall (id, o) (by simp)
    obtain ⟨s, hs⟩ := Option.isSome_iff_exists.mp hid
    cases o with
    | none =>
      simp only [encodeEntries, webmChunk, List.nil_append]
      rw [ih r (fun p hp => hall p (by simp [hp]))]
      simp [applyEntries]
    | some v =>
      simp only [encodeEntries, webmChunk]
      rw [show ([id, 1, v] ++ encodeEntries t) =
          id :: 1 :: v :: encodeEntries t from rfl]
      rw [parseWebM_cons_known id s hs r v (encodeEntries t)]
      rw [ih (s r v) (fun p hp => hall p (by simp [hp]))]
      simp [applyEntries, hs]

/-- Unfolding: `WriteWebM` is the encoding of the record's field list. -/
theorem writeWebM_eq_encode (r : VPCodecConfigurationRecord) :
    r.WriteWebM = encodeEntries (webmEntryList r) := by
  simp [VPCodecConfigurationRecord.WriteWebM, webmEntryList, encodeEntries]

/-- Every id in a record's field list is recognized by the lookup
table. -/
theorem webmEntryList_recognized (r : VPCodecConfigurationRecord) :
    ∀ p ∈ webmEntryList r,
      (VPCodecConfigurationRecord.fieldSetterById p.1).isSome := by
  intro p hp
  simp only [webmEntryList, List.mem_cons, List.mem_singleton,
    List.not_mem_nil, or_false] at hp
  rcases hp with h | h | h | h | h | h | h | h <;> subst h <;> rfl

/-- The bit written for the boolean flag parses back to the same
boolean. -/
theorem flag_bit_roundtrip :
    ∀ b : Bool, ((if b then (1 : Nat) else 0) % 2 == 1) = b := by decide

/-- Applying a record's own field list to the empty record rebuilds the
record's scalar fields exactly, with empty initialization data. -/
theorem applyEntries_webmEntryList (r : VPCodecConfigurationRecord) :
    applyEntries (webmEntryList r) emptyRecord =
      { r with codec_initialization_data_ := [] } := by
  obtain ⟨op, ol, ob, oc, ov, ocp, otr, om, init⟩ := r
  cases op <;> cases ol <;> cases ob <;> cases oc <;> cases ov <;>
    cases ocp <;> cases otr <;> cases om <;>
    simp [webmEntryList, applyEntries,
      VPCodecConfigurationRecord.fieldSetterById, kFeatureProfile,
      kFeatureLevel, kFeatureBitDepth, kFeatureChromaSubsampling,
      kFeatureVideoFullRangeFlag, kFeatureColorPrimaries,
      kFeatureTransferCharacteristics, kFeatureMatrixCoefficients,
      VPCodecConfigurationRecord.set_profile,
      VPCodecConfigurationRecord.set_level,
      VPCodecConfigurationRecord.set_bit_depth,
      VPCodecConfigurationRecord.set_chroma_subsampling,
      VPCodecConfigurationRecord.set_video_full_range_flag,
      VPCodecConfigurationRecord.set_color_primaries,
      VPCodecConfigurationRecord.set_transfer_characteristics,
      VPCodecConfigurationRecord.set_matrix_coefficients,
      emptyRecord, flag_bit_roundtrip]

/-- C2: WebM round-trip.  Parsing the WebM serialization of any record
into a fresh record yields exactly the record's set scalar fields with
identical values; every unset field remains unset and its getter
returns the documented default; initialization data is not carried by
this encoding. -/
theorem webm_roundtrip (r : VPCodecConfigurationRecord) :
    ∃ res, emptyRecord.ParseWebM r.WriteWebM = some res ∧
      res = { r with codec_initialization_data_ := [] } ∧
      (res.profile_ = none → res.profile = 0) ∧
      (res.level_ = none → res.level = 10) ∧
      (res.bit_depth_ = none → res.bit_depth = 8) ∧
      (res.chroma_subsampling_ = none → res.chroma_subsampling = 1) ∧
      (res.video_full_range_flag_ = none →
        res.video_full_range_flag = false) ∧
      (res.color_primaries_ = none → res.color_primaries = 2) ∧
      (res.transfer_characteristics_ = none →
        res.transfer_characteristics = 2) ∧
      (res.matrix_coefficients_ = none → res.matrix_coefficients = 2) := by
  refine ⟨{ r with codec_initialization_data_ := [] }, ?_, rfl,
    ?_, ?_, ?_, ?_, ?_, ?_, ?_, ?_⟩
  · rw [writeWebM_eq_encode,
      parseWebM_encodeEntries (webmEntryList r) emptyRecord
        (webmEntryList_recognized r),
      applyEntries_webmEntryList]
  all_goals
    intro h
    simp_all [VPCodecConfigurationRecord.profile,
      VPCodecConfigurationRecord.level, VPCodecConfigurationRecord.bit_depth,
      VPCodecConfigurationRecord.chroma_subsampling,
      VPCodecConfigurationRecord.video_full_range_flag,
      VPCodecConfigurationRecord.color_primaries,
      VPCodecConfigurationRecord.transfer_characteristics,
      VPCodecConfigurationRecord.matrix_coefficients,
      AVCOL_PRI_UNSPECIFIED, AVCOL_TRC_UNSPECIFIED, AVCOL_SPC_UNSPECIFIED,
      CHROMA_420_COLLOCATED_WITH_LUMA]

/-- Sample record for the WebM round-trip witness: a strict subset of
the fields is set. -/
def webmSampleRecord : VPCodecConfigurationRecord :=
  { profile_ := some 2, level_ := none, bit_depth_ := some 10
    chroma_subsampling_ := none, video_full_range_flag_ := some true
    color_primaries_ := none, transfer_characteristics_ := some 18
    matrix_coefficients_ := none, codec_initialization_data_ := [1, 2] }

/-- Witness for the WebM round-trip at a concrete record with a proper
subset of set fields. -/
theorem webm_roundtrip_witness :
    emptyRecord.ParseWebM webmSampleRecord.WriteWebM =
      some { webmSampleRecord with codec_initialization_data_ := [] } := by
  obtain ⟨res, h1, h2, _⟩ := webm_roundtrip webmSampleRecord
  rw [h1, h2]

/-- C3: `MergeFrom` is right-biased per field: every scalar field set
in `other` overwrites the receiver's (and becomes set), every unset
one leaves the receiver's state untouched; the initialization data of
`other` wins exactly when it is non-empty. -/
theorem mergeFrom_right_bias (a b : VPCodecConfigurationRecord) :
    (b.profile_.isSome → (a.MergeFrom b).profile_ = b.profile_) ∧
    (b.profile_ = none → (a.MergeFrom b).profile_ = a.profile_) ∧
    (b.level_.isSome → (a.MergeFrom b).level_ = b.level_) ∧
    (b.level_ = none → (a.MergeFrom b).level_ = a.level_) ∧
    (b.bit_depth_.isSome → (a.MergeFrom b).bit_depth_ = b.bit_depth_) ∧
    (b.bit_depth_ = none → (a.MergeFrom b).bit_depth_ = a.bit_depth_) ∧
    (b.chroma_subsampling_.isSome →
      (a.MergeFrom b).chroma_subsampling_ = b.chroma_subsampling_) ∧
    (b.chroma_subsampling_ = none →
      (a.MergeFrom b).chroma_subsampling_ = a.chroma_subsampling_) ∧
    (b.video_full_range_flag_.isSome →
      (a.MergeFrom b).video_full_range_flag_ = b.video_full_range_flag_) ∧
    (b.video_full_range_flag_ = none →
      (a.MergeFrom b).video_full_range_flag_ = a.video_full_range_flag_) ∧
    (b.color_primaries_.isSome →
      (a.MergeFrom b).color_primaries_ = b.color_primaries_) ∧
    (b.color_primaries_ = none →
      (a.MergeFrom b).color_primaries_ = a.color_primaries_) ∧
    (b.transfer_characteristics_.isSome →
      (a.MergeFrom b).transfer_characteristics_ =
        b.transfer_characteristics_) ∧
    (b.transfer_characteristics_ = none →
      (a.MergeFrom b).transfer_characteristics_ =
        a.transfer_characteristics_) ∧
    (b.matrix_coefficients_.isSome →
      (a.MergeFrom b).matrix_coefficients_ = b.matrix_coefficients_) ∧
    (b.matrix_coefficients_ = none →
      (a.MergeFrom b).matrix_coefficients_ = a.matrix_coefficients_) ∧
    (b.codec_initialization_data_ ≠ [] →
      (a.MergeFrom b).codec_initialization_data_ =
        b.codec_initialization_data_) ∧
    (b.codec_initialization_data_ = [] →
      (a.MergeFrom b).codec_initialization_data_ =
        a.codec_initialization_data_) := by
  refine ⟨?_, ?_, ?_, ?_, ?_, ?_, ?_, ?_, ?_, ?_, ?_, ?_, ?_, ?_, ?_, ?_,
    ?_, ?_⟩ <;> intro h
  all_goals
    first
      | (rw [Option.isSome_iff_exists] at h
         obtain ⟨v, hv⟩ := h
         simp [VPCodecConfigurationRecord.MergeFrom, mergeField, hv])
      | simp [VPCodecConfigurationRecord.MergeFrom, mergeField, h,
          List.isEmpty_iff]

/-- Record with only `profile` set, for the merge witness. -/
def mergeRecA : VPCodecConfigurationRecord :=
  { emptyRecord with profile_ := some 2 }

/-- Record with only `level` set, for the merge witness. -/
def mergeRecB : VPCodecConfigurationRecord :=
  { emptyRecord with level_ := some 20 }

/-- Witness for the merge right-bias: merging a level-only record into
a profile-only record keeps the profile and adopts the level. -/
theorem mergeFrom_right_bias_witness :
    (mergeRecA.MergeFrom mergeRecB).profile_ = mergeRecA.profile_ ∧
    (mergeRecA.MergeFrom mergeRecB).level_ = mergeRecB.level_ :=
  ⟨(mergeFrom_right_bias mergeRecA mergeRecB).2.1 rfl,
   (mergeFrom_right_bias mergeRecA mergeRecB).2.2.1 rfl⟩

/-- C5: failed decodes leave the record untouched: whenever `ParseMP4`
or `ParseWebM` reports failure, the record state after the call equals
the state before it, in every field and in the initialization data. -/
theorem parse_failure_preserves_record (r : VPCodecConfigurationRecord)
    (d : List Nat) :
    ((r.ParseMP4Call d).1 = false → (r.ParseMP4Call d).2 = r) ∧
    ((r.ParseWebMCall d).1 = false → (r.ParseWebMCall d).2 = r) := by
  constructor <;> intro h
  · cases hp : r.ParseMP4 d with
    | none => simp [VPCodecConfigurationRecord.ParseMP4Call, hp]
    | some r2 => simp [VPCodecConfigurationRecord.ParseMP4Call, hp] at h
  · cases hp : r.ParseWebM d with
    | none => simp [VPCodecConfigurationRecord.ParseWebMCall, hp]
    | some r2 => simp [VPCodecConfigurationRecord.ParseWebMCall, hp] at h

/-- Witness for failure preservation: a one-byte buffer fails both
decoders and leaves the record as it was. -/
theorem parse_failure_preserves_record_witness :
    (emptyRecord.ParseMP4Call [1]).1 = false ∧
    (emptyRecord.ParseMP4Call [1]).2 = emptyRecord ∧
    (emptyRecord.ParseWebMCall [1]).1 = false ∧
    (emptyRecord.ParseWebMCall [1]).2 = emptyRecord :=
  ⟨by decide,
   (parse_failure_preserves_record emptyRecord [1]).1 (by decide),
   by decide,
   (parse_failure_preserves_record emptyRecord [1]).2 (by decide)⟩

/-- C8: `ParseWebM` skips an unrecognized entry over its declared
length rather than failing; a buffer holding one unknown
id/length/value entry followed by one valid profile entry parses
successfully and sets only `profile`. -/
theorem webm_unknown_id_skip (id len : Nat) (vals : List Nat) (p : Nat)
    (hid : VPCodecConfigurationRecord.fieldSetterById id = none)
    (hlen : vals.length = len) :
    (∀ (r0 : VPCodecConfigurationRecord) (rest : List Nat),
      r0.ParseWebM (id :: len :: (vals ++ rest)) = r0.ParseWebM rest) ∧
    emptyRecord.ParseWebM (id :: len :: (vals ++ [kFeatureProfile, 1, p])) =
      some { emptyRecord with profile_ := some p } := by
  constructor
  · intro r0 rest
    exact parseWebM_cons_unknown id len hid vals hlen r0 rest
  · rw [parseWebM_cons_unknown id len hid vals hlen emptyRecord _]
    rw [show ([kFeatureProfile, 1, p] : List Nat) =
        kFeatureProfile :: 1 :: p :: [] from rfl]
    rw [parseWebM_cons_known kFeatureProfile _ rfl emptyRecord p []]
    rfl

/-- Witness for the unknown-id tolerance at a concrete buffer. -/
theorem webm_unknown_id_skip_witness :
    (VPCodecConfigurationRecord.fieldSetterById 200 = none ∧
      ([9, 9] : List Nat).length = 2) ∧
    emptyRecord.ParseWebM (200 :: 2 :: ([9, 9] ++ [kFeatureProfile, 1, 3])) =
      some { emptyRecord with profile_ := some 3 } :=
  ⟨⟨rfl, rfl⟩, (webm_unknown_id_skip 200 2 [9, 9] 3 rfl rfl).2⟩

/-- C9: the WebM entry loop terminates within one iteration per input
byte: with any fuel at least the buffer length, the loop equals
`ParseWebM`, for every buffer, including zero-length and truncated
entries; every other operation of the embedding is a plain total
function. -/
theorem parseWebM_terminates (r : VPCodecConfigurationRecord)
    (d : List Nat) (fuel : Nat) (h : d.length ≤ fuel) :
    VPCodecConfigurationRecord.parseWebMLoop r d fuel = r.ParseWebM d :=
  parseWebMLoop_fuel fuel r d d.length h (le_refl _)

/-- Witness for loop termination on a buffer with a zero-length entry
and a trailing truncated entry. -/
theorem parseWebM_terminates_witness :
    (([200, 0, 1] : List Nat).length ≤ 50) ∧
    VPCodecConfigurationRecord.parseWebMLoop emptyRecord [200, 0, 1] 50 =
      emptyRecord.ParseWebM [200, 0, 1] :=
  ⟨by decide, parseWebM_terminates emptyRecord [200, 0, 1] 50 (by decide)⟩

/-- On the guaranteed range 0-99, the conditionally padded rendering is
exactly the two decimal digits of the value. -/
theorem twoDigit_eq_specPad2 : ∀ n < 100, twoDigit n = specPad2 n := by
  decide

/-- The spec's codec-string example record: profile 0, level 10,
bit_depth 8, chroma_subsampling 1, the three colour fields 1, flag
false. -/
def codecStringSample : VPCodecConfigurationRecord :=
  { profile_ := some 0, level_ := some 10, bit_depth_ := some 8
    chroma_subsampling_ := some 1, video_full_range_flag_ := some false
    color_primaries_ := some 1, transfer_characteristics_ := some 1
    matrix_coefficients_ := some 1, codec_initialization_data_ := [] }

/-- C7: the codec string.  For getter values up to 99 the VP9 variant
is the dotted tag with every numeric field rendered as exactly two
decimal digits and the boolean as 00/01; the VP8 variant is the bare
tag; the spec's example record yields exactly
"vp09.00.10.08.01.01.01.01.00". -/
theorem codec_string_format (r : VPCodecConfigurationRecord)
    (h1 : r.profile ≤ 99) (h2 : r.level ≤ 99) (h3 : r.bit_depth ≤ 99)
    (h4 : r.chroma_subsampling ≤ 99) (h5 : r.color_primaries ≤ 99)
    (h6 : r.transfer_characteristics ≤ 99)
    (h7 : r.matrix_coefficients ≤ 99) :
    r.GetCodecString Codec.kCodecVP9 =
      "vp09." ++ specPad2 r.profile ++ "." ++ specPad2 r.level ++ "." ++
        specPad2 r.bit_depth ++ "." ++ specPad2 r.chroma_subsampling ++
        "." ++ specPad2 r.color_primaries ++ "." ++
        specPad2 r.transfer_characteristics ++ "." ++
        specPad2 r.matrix_coefficients ++ "." ++
        (if r.video_full_range_flag then "01" else "00") ∧
    r.GetCodecString Codec.kCodecVP8 = "vp08" ∧
    codecStringSample.GetCodecString Codec.kCodecVP9 =
      "vp09.00.10.08.01.01.01.01.00" := by
  have hflag : ∀ b : Bool,
      twoDigit (if b then (1 : Nat) else 0) = if b then "01" else "00" := by
    decide
  refine ⟨?_, rfl, by decide⟩
  simp only [VPCodecConfigurationRecord.GetCodecString]
  rw [twoDigit_eq_specPad2 _ (by omega), twoDigit_eq_specPad2 _ (by omega),
    twoDigit_eq_specPad2 _ (by omega), twoDigit_eq_specPad2 _ (by omega),
    twoDigit_eq_specPad2 _ (by omega), twoDigit_eq_specPad2 _ (by omega),
    twoDigit_eq_specPad2 _ (by omega), hflag]

/-- Witness for the codec-string format at the spec's example record,
whose getter values are all at most 99. -/
theorem codec_string_format_witness :
    (codecStringSample.profile ≤ 99 ∧ codecStringSample.level ≤ 99 ∧
     codecStringSample.bit_depth ≤ 99 ∧
     codecStringSample.chroma_subsampling ≤ 99 ∧
     codecStringSample.color_primaries ≤ 99 ∧
     codecStringSample.transfer_characteristics ≤ 99 ∧
     codecStringSample.matrix_coefficients ≤ 99) ∧
    codecStringSample.GetCodecString Codec.kCodecVP9 =
      "vp09." ++ specPad2 codecStringSample.profile ++ "." ++
        specPad2 codecStringSample.level ++ "." ++
        specPad2 codecStringSample.bit_depth ++ "." ++
        specPad2 codecStringSample.chroma_subsampling ++ "." ++
        specPad2 codecStringSample.color_primaries ++ "." ++
        specPad2 codecStringSample.transfer_characteristics ++ "." ++
        specPad2 codecStringSample.matrix_coefficients ++ "." ++
        (if codecStringSample.video_full_range_flag then "01" else "00") :=
  ⟨by decide,
   (codec_string_format codecStringSample (by decide) (by decide) (by decide)
     (by decide) (by decide) (by decide) (by decide)).1⟩

/-- Observable result of one const member call. -/
inductive ObsValue
  | natVal (n : Nat)
  | boolVal (b : Bool)
  | bytesVal (l : List Nat)
  | strVal (s : String)

/-- The const member functions of the record (header lines 156-207):
the eight getters, the two writers and the codec-string formatter. -/
inductive ConstOp
  | getProfile
  | getLevel
  | getBitDepth
  | getChromaSubsampling
  | getVideoFullRangeFlag
  | getColorPrimaries
  | getTransferCharacteristics
  | getMatrixCoefficients
  | doWriteMP4
  | doWriteWebM
  | doGetCodecString (c : Codec)

/-- Calling one const member: the value returned together with the
receiver state after the call.  Every one of these members is
`const`-qualified in the header and the getters read through
`value_or`, so the post-call receiver is the receiver itself. -/
def constCall (r : VPCodecConfigurationRecord) :
    ConstOp → ObsValue × VPCodecConfigurationRecord
  | ConstOp.getProfile => (ObsValue.natVal r.profile, r)
  | ConstOp.getLevel => (ObsValue.natVal r.level, r)
  | ConstOp.getBitDepth => (ObsValue.natVal r.bit_depth, r)
  | ConstOp.getChromaSubsampling => (ObsValue.natVal r.chroma_subsampling, r)
  | ConstOp.getVideoFullRangeFlag =>
    (ObsValue.boolVal r.video_full_range_flag, r)
  | ConstOp.getColorPrimaries => (ObsValue.natVal r.color_primaries, r)
  | ConstOp.getTransferCharacteristics =>
    (ObsValue.natVal r.transfer_characteristics, r)
  | ConstOp.getMatrixCoefficients =>
    (ObsValue.natVal r.matrix_coefficients, r)
  | ConstOp.doWriteMP4 => (ObsValue.bytesVal r.WriteMP4, r)
  | ConstOp.doWriteWebM => (ObsValue.bytesVal r.WriteWebM, r)
  | ConstOp.doGetCodecString c => (ObsValue.strVal (r.GetCodecString c), r)

/-- The record state after a sequence of const member calls. -/
def runObs (r : VPCodecConfigurationRecord) (ops : List ConstOp) :
    VPCodecConfigurationRecord :=
  ops.foldl (fun s op => (constCall s op).2) r

/-- C10: the observers are pure.  Any sequence of getter, writer and
codec-string calls leaves every field's presence status and value
unchanged (the state after the sequence is the starting record), and
in particular the WebM output is identical before and after the
sequence. -/
theorem observers_pure (r : VPCodecConfigurationRecord)
    (ops : List ConstOp) :
    runObs r ops = r ∧ (runObs r ops).WriteWebM = r.WriteWebM := by
  have h : ∀ (s : VPCodecConfigurationRecord), runObs s ops = s := by
    induction ops with
    | nil => intro s; rfl
    | cons op t ih =>
      intro s
      have hop : (constCall s op).2 = s := by cases op <;> rfl
      show (op :: t).foldl (fun s2 op2 => (constCall s2 op2).2) s = s
      rw [List.foldl_cons, hop]
      exact ih s
  exact ⟨h r, by rw [h r]⟩
